import Mathlib

/-!
Verification of the asynchronous notification delivery engine of the
`go_task-manager` repository (package `internal/notifications`), as a
shallow embedding in Lean.

Modelling conventions:
* Go `time.Time` is modelled as `Int` (seconds); the zero `time.Time`
  is `0`, and `time.Now()` at a given step is an explicit `now` argument.
* Go `int` is `Int`; the string-backed enums (`NotificationType`,
  `NotificationStatus`, `NotificationPriority`, `NotificationTrigger`)
  stay `String`, with one constant per Go constant.
* Nullable pointers (`*time.Time`, `*int`) are `Option`.
* The `Metadata map[string]interface{}` field of `Notification` is not
  carried: no operation in the verified code reads or writes it.
* Channel operations of the service are modelled by an explicit
  `ServiceState`; a Go `select` with several ready cases picks one
  nondeterministically, which is modelled by a `SelectChoice` argument.
-/

namespace TaskNotify

/-- Go `time.Time`, in seconds; the zero value of `time.Time` is `0`. -/
abbrev Time := Int

/-- Mirror of the Go struct `Notification` (field for field, except the
unused `Metadata` map); default values are the Go zero values. -/
structure Notification where
  id : Int := 0
  userID : Int := 0
  taskID : Int := 0
  type : String := ""
  priority : String := ""
  status : String := ""
  trigger : String := ""
  title : String := ""
  message : String := ""
  recipient : String := ""
  channel : String := ""
  scheduledAt : Option Time := none
  sentAt : Option Time := none
  deliveredAt : Option Time := none
  createdAt : Time := 0
  updatedAt : Time := 0
  retryCount : Int := 0
  maxRetries : Int := 0
  error : String := ""
deriving DecidableEq, Repr

/-- Mirror of `NotificationConfig` (the SMTP/Twilio/webhook credential
fields are never read by the verified code and are omitted). -/
structure NotificationConfig where
  maxRetries : Int := 0
  retryDelay : Int := 0
  batchSize : Int := 0
  workerCount : Int := 0
deriving DecidableEq, Repr

/-- Go `DefaultNotificationConfig()`. -/
def defaultNotificationConfig : NotificationConfig :=
  { maxRetries := 3, retryDelay := 300, batchSize := 100, workerCount := 5 }

def typeEmail : String := "email"
def typeInApp : String := "in_app"
def typeSMS : String := "sms"
def typeWebhook : String := "webhook"
def typeSlack : String := "slack"
def typeDiscord : String := "discord"

def priorityLow : String := "low"
def priorityNormal : String := "normal"
def priorityHigh : String := "high"
def priorityCritical : String := "critical"

def statusPending : String := "pending"
def statusSent : String := "sent"
def statusDelivered : String := "delivered"
def statusFailed : String := "failed"
def statusCancelled : String := "cancelled"

def triggerDueDate : String := "due_date"
def triggerOverdue : String := "overdue"
def triggerStatusChange : String := "status_change"
def triggerCreated : String := "created"
def triggerUpdated : String := "updated"
def triggerCustom : String := "custom"

/-- Go `(*NotificationWorker).sendEmail`: the placeholder sender returns
an error exactly when `RetryCount > 0 && RetryCount%3 == 0` (the
simulated failure for testing); it performs no validation of
`Recipient` or any other field. -/
def sendEmail (n : Notification) : Option String :=
  if n.retryCount > 0 ∧ n.retryCount % 3 = 0 then
    some "simulated email sending failure"
  else
    none

/-- Go `(*NotificationWorker).sendInApp`: placeholder, always succeeds. -/
def sendInApp (_ : Notification) : Option String := none

/-- Go `(*NotificationWorker).sendSMS`: placeholder, always succeeds. -/
def sendSMS (_ : Notification) : Option String := none

/-- Go `(*NotificationWorker).sendWebhook`: placeholder, always succeeds. -/
def sendWebhook (_ : Notification) : Option String := none

/-- Go `(*NotificationWorker).sendSlack`: placeholder, always succeeds. -/
def sendSlack (_ : Notification) : Option String := none

/-- Go `(*NotificationWorker).sendDiscord`: placeholder, always succeeds. -/
def sendDiscord (_ : Notification) : Option String := none

/-- The `switch notification.Type` dispatch of
`(*NotificationWorker).processNotification`: the error (if any) of the
attempted delivery, with the `default` case producing the
"unsupported notification type" error. -/
def attemptDelivery (n : Notification) : Option String :=
  if n.type = typeEmail then sendEmail n
  else if n.type = typeInApp then sendInApp n
  else if n.type = typeSMS then sendSMS n
  else if n.type = typeWebhook then sendWebhook n
  else if n.type = typeSlack then sendSlack n
  else if n.type = typeDiscord then sendDiscord n
  else some ("unsupported notification type: " ++ n.type)

/-- The set of `case` labels of the dispatch switch (every `Type` the
service can deliver). -/
def isSupportedType (s : String) : Bool :=
  s = typeEmail ∨ s = typeInApp ∨ s = typeSMS ∨ s = typeWebhook ∨
    s = typeSlack ∨ s = typeDiscord

/-- Go `(*NotificationWorker).processNotification`.  Returns the
notification as mutated by the worker together with `true` when the
worker re-submitted it to the queue (`nw.queue <- notification`),
`false` otherwise.  Every `time.Now()` of the step is `now`. -/
def processNotification (cfg : NotificationConfig) (now : Time)
    (n0 : Notification) : Notification × Bool :=
  let n1 := { n0 with status := statusPending, updatedAt := now }
  match attemptDelivery n1 with
  | some e =>
    let n2 := { n1 with status := statusFailed, error := e,
                        retryCount := n1.retryCount + 1 }
    if n2.retryCount < n2.maxRetries then
      ({ n2 with status := statusPending,
                 scheduledAt := some (now + cfg.retryDelay),
                 updatedAt := now }, true)
    else
      ({ n2 with updatedAt := now }, false)
  | none =>
    ({ n1 with status := statusSent, sentAt := some now,
               updatedAt := now }, false)

/-- The worker loop restricted to one notification: keep processing as
long as the retry branch re-submits it, for at most `fuel` iterations
(the queue delivers it back to a worker each time). -/
def runWorker (cfg : NotificationConfig) (now : Time) :
    Nat → Notification → Notification
  | 0, n => n
  | fuel + 1, n =>
    let p := processNotification cfg now n
    if p.2 then runWorker cfg now fuel p.1 else p.1

/-- The state of a `NotificationService` that matters to enqueueing:
whether `ns.cancel()` has run (`ctx.Done()` is closed), whether
`close(ns.queue)` has run, whether some worker is currently blocked
receiving on the queue, the buffered contents of the queue channel, and
its capacity (`config.BatchSize`). -/
structure ServiceState where
  ctxCancelled : Bool := false
  queueClosed : Bool := false
  receiverWaiting : Bool := false
  queue : List Notification := []
  batchSize : Int := 0
deriving DecidableEq, Repr

/-- Outcome of one `SendNotification` call.  `panicked` is the Go
runtime panic raised by a send on a closed channel. -/
inductive SendResult where
  | enqueued
  | serviceStopped
  | queueFull
  | panicked
deriving DecidableEq, Repr

/-- Which ready case the Go `select` statement picks when both the
queue-send case and the `ctx.Done()` case are ready (the Go runtime
chooses uniformly at random among ready cases). -/
inductive SelectChoice where
  | sendCase
  | doneCase
deriving DecidableEq, Repr

/-- The queue-send case of the `select` in `SendNotification` is ready:
the channel is closed (a send would proceed by panicking), or a worker
is blocked receiving, or the buffer has room. -/
def queueSendReady (st : ServiceState) : Bool :=
  st.queueClosed ∨ st.receiverWaiting ∨ (st.queue.length : Int) < st.batchSize

/-- Effect of executing `ns.queue <- notification`: a panic when the
channel is closed, otherwise hand-off to a waiting worker or append to
the buffer. -/
def execQueueSend (st : ServiceState) (n : Notification) :
    SendResult × ServiceState :=
  if st.queueClosed then (SendResult.panicked, st)
  else if st.receiverWaiting then
    (SendResult.enqueued, { st with receiverWaiting := false })
  else (SendResult.enqueued, { st with queue := st.queue ++ [n] })

/-- The default-setting prologue of `SendNotification`: `MaxRetries`
from config when zero, `CreatedAt = now` when zero, `UpdatedAt = now`. -/
def applyDefaults (cfg : NotificationConfig) (now : Time)
    (n : Notification) : Notification :=
  let n1 := if n.maxRetries = 0 then { n with maxRetries := cfg.maxRetries } else n
  let n2 := if n1.createdAt = 0 then { n1 with createdAt := now } else n1
  { n2 with updatedAt := now }

/-- Go `(*NotificationService).SendNotification`: apply defaults, then
`select { case ns.queue <- n; case <-ns.ctx.Done(); default }`.  When
both non-default cases are ready the runtime picks one: `choice`. -/
def sendNotification (cfg : NotificationConfig) (now : Time)
    (st : ServiceState) (n0 : Notification) (choice : SelectChoice) :
    SendResult × ServiceState :=
  let n := applyDefaults cfg now n0
  if queueSendReady st ∧ st.ctxCancelled then
    match choice with
    | SelectChoice.sendCase => execQueueSend st n
    | SelectChoice.doneCase => (SendResult.serviceStopped, st)
  else if queueSendReady st then execQueueSend st n
  else if st.ctxCancelled then (SendResult.serviceStopped, st)
  else (SendResult.queueFull, st)

/-- Go `(*NotificationService).Stop`: cancel the context, wait for all
workers to exit (so none is left receiving), then close the queue
channel.  Buffered notifications are left in the closed channel. -/
def stopService (st : ServiceState) : ServiceState :=
  { st with ctxCancelled := true, receiverWaiting := false,
            queueClosed := true }

/-- The goroutine spawned by `ScheduleNotification`: it sleeps
`time.Until(scheduledAt)` (no sleep when that is negative) and then
calls `SendNotification(n)`, discarding its result. -/
structure ScheduledJob where
  sleepFor : Time
  payload : Notification
deriving DecidableEq, Repr

/-- What a `ScheduleNotification` call produces: the value returned to
the caller (the `error`, as an `Option String`), the notification as
mutated synchronously, and the deferred job handed to the goroutine. -/
structure ScheduleResult where
  returned : Option String
  notif : Notification
  job : ScheduledJob
deriving DecidableEq, Repr

/-- Go `(*NotificationService).ScheduleNotification`: stamps
`ScheduledAt`, `Status = Pending`, `CreatedAt`/`UpdatedAt = now`,
spawns the sleeping goroutine, and returns `nil` unconditionally. -/
def scheduleNotification (now : Time) (n0 : Notification)
    (scheduledAt : Time) : ScheduleResult :=
  let n := { n0 with scheduledAt := some scheduledAt,
                     status := statusPending,
                     createdAt := now, updatedAt := now }
  { returned := none, notif := n,
    job := { sleepFor := max (scheduledAt - now) 0, payload := n } }

/-- The `Task` rows the scheduler reads from the repository: `DueDate`
and `UserID` are nullable pointers in Go. -/
structure Task where
  id : Int := 0
  title : String := ""
  dueDate : Option Time := none
  userID : Option Int := none
deriving DecidableEq, Repr

/-- The notification literal built in the loop body of
`(*Scheduler).checkOverdueTasks` for a task whose `UserID` points to
`uid` and whose `DueDate` points to `d` (`overdueHours` is
`int(time.Since(*task.DueDate).Hours())`, truncated toward zero). -/
def mkOverdueNotification (now : Time) (t : Task) (uid : Int)
    (d : Time) : Notification :=
  let overdueHours := (now - d).tdiv 3600
  { userID := uid, taskID := t.id, type := typeEmail,
    priority := priorityHigh, trigger := triggerOverdue,
    title := "Overdue Task: " ++ t.title,
    message := "Your task \x27" ++ t.title ++ "\x27 is " ++
      toString overdueHours ++ " hours overdue.",
    recipient := "", maxRetries := 3 }

/-- Go `(*Scheduler).checkOverdueTasks`, over the task list returned by
`repository.GetOverdueTasks()`: tasks with a nil `UserID` are skipped;
for the rest the loop dereferences `*task.DueDate` unconditionally —
`none` models the nil-pointer-dereference panic — and otherwise
submits the synthesized notification via `SendNotification` (whose
error is only logged).  The result is the ordered list of
notifications passed to `SendNotification`. -/
def checkOverdueTasks (now : Time) : List Task → Option (List Notification)
  | [] => some []
  | t :: ts =>
    match t.userID with
    | none => checkOverdueTasks now ts
    | some uid =>
      match t.dueDate with
      | none => none
      | some d =>
        (checkOverdueTasks now ts).map
          (fun l => mkOverdueNotification now t uid d :: l)

/-- The notification literal built in the loop body of
`(*Scheduler).checkDueSoonTasks` (`minutesUntilDue` is
`int(task.DueDate.Sub(now).Minutes())`, truncated toward zero). -/
def mkDueSoonNotification (now : Time) (t : Task) (uid : Int)
    (d : Time) : Notification :=
  let minutesUntilDue := (d - now).tdiv 60
  { userID := uid, taskID := t.id, type := typeEmail,
    priority := priorityNormal, trigger := triggerDueDate,
    title := "Task Reminder: " ++ t.title,
    message := "Your task \x27" ++ t.title ++ "\x27 is due in " ++
      toString minutesUntilDue ++ " minutes.",
    recipient := "", maxRetries := 3 }

/-- Go `(*Scheduler).checkDueSoonTasks`, over the task list returned by
`repository.GetAllTasks()`: tasks with a nil `DueDate` or nil `UserID`
are skipped; a reminder is submitted via `SendNotification` exactly
when `task.DueDate.After(now) && task.DueDate.Before(now.Add(60*time.Minute))`.
The result is the ordered list of notifications passed to
`SendNotification`. -/
def checkDueSoonTasks (now : Time) : List Task → List Notification
  | [] => []
  | t :: ts =>
    match t.dueDate, t.userID with
    | some d, some uid =>
      if now < d ∧ d < now + 3600 then
        mkDueSoonNotification now t uid d :: checkDueSoonTasks now ts
      else
        checkDueSoonTasks now ts
    | _, _ => checkDueSoonTasks now ts

/-! ### Helper lemmas about the worker step -/

/-- `attemptDelivery` reads only `type` and `retryCount`, so the
status/timestamp pre-update of the worker does not change it. -/
theorem attemptDelivery_set_status (n : Notification) (s : String)
    (u : Time) :
    attemptDelivery { n with status := s, updatedAt := u } =
      attemptDelivery n := rfl

/-- Closed form of `processNotification` on a failing attempt. -/
theorem process_fail_eq (cfg : NotificationConfig) (now : Time)
    (n : Notification) (e : String) (h : attemptDelivery n = some e) :
    processNotification cfg now n =
      if n.retryCount + 1 < n.maxRetries then
        ({ n with status := statusPending, error := e,
                  retryCount := n.retryCount + 1,
                  scheduledAt := some (now + cfg.retryDelay),
                  updatedAt := now }, true)
      else
        ({ n with status := statusFailed, error := e,
                  retryCount := n.retryCount + 1,
                  updatedAt := now }, false) := by
  have h1 : attemptDelivery { n with status := statusPending, updatedAt := now } =
      some e := (attemptDelivery_set_status n statusPending now).trans h
  simp only [processNotification, h1]

/-- Closed form of `processNotification` on a successful attempt. -/
theorem process_success_eq (cfg : NotificationConfig) (now : Time)
    (n : Notification) (h : attemptDelivery n = none) :
    processNotification cfg now n =
      ({ n with status := statusSent, sentAt := some now,
                updatedAt := now }, false) := by
  have h1 : attemptDelivery { n with status := statusPending, updatedAt := now } =
      none := (attemptDelivery_set_status n statusPending now).trans h
  simp only [processNotification, h1]

/-! ### Claim C1 — retry transition on failure -/

/-- An email notification whose attempt fails while
`RetryCount = MaxRetries - 1`. -/
def nCx1 : Notification :=
  { type := typeEmail, retryCount := 3, maxRetries := 4 }

/-- Claim C1 as stated is false: this delivery attempt fails with
`RetryCount (= 3) < MaxRetries (= 4)`, yet the worker does not
re-submit the notification with an incremented count and `Pending`
status — it marks it terminally `Failed` (the code increments before
comparing). -/
theorem claim1_counterexample :
    nCx1.retryCount < nCx1.maxRetries ∧
    attemptDelivery nCx1 = some "simulated email sending failure" ∧
    (processNotification defaultNotificationConfig 0 nCx1).1.status = statusFailed ∧
    (processNotification defaultNotificationConfig 0 nCx1).2 = false := by
  decide

/-- Claim C1 amended: on a failing attempt the worker always increments
`RetryCount` first and stores the error; it then re-submits with
`Status = Pending` and `ScheduledAt = now + RetryDelay` exactly when the
already-incremented count is still below `MaxRetries`, and otherwise
leaves the notification terminally `Failed` (with the incremented
count). -/
theorem claim1_retry_rule (cfg : NotificationConfig) (now : Time)
    (n : Notification) (e : String) (h : attemptDelivery n = some e) :
    (processNotification cfg now n).1.retryCount = n.retryCount + 1 ∧
    (processNotification cfg now n).1.error = e ∧
    (n.retryCount + 1 < n.maxRetries →
      (processNotification cfg now n).1.status = statusPending ∧
      (processNotification cfg now n).2 = true ∧
      (processNotification cfg now n).1.scheduledAt = some (now + cfg.retryDelay)) ∧
    (¬ n.retryCount + 1 < n.maxRetries →
      (processNotification cfg now n).1.status = statusFailed ∧
      (processNotification cfg now n).2 = false ∧
      (processNotification cfg now n).1.retryCount = n.retryCount + 1) := by
  rw [process_fail_eq cfg now n e h]
  by_cases hlt : n.retryCount + 1 < n.maxRetries <;> simp [hlt]

/-- A failing email attempt with retries left after the increment. -/
def nW1 : Notification :=
  { type := typeEmail, retryCount := 3, maxRetries := 10 }

/-- Witness for `claim1_retry_rule` at `nW1`. -/
theorem claim1_witness :
    attemptDelivery nW1 = some "simulated email sending failure" ∧
    ((processNotification defaultNotificationConfig 7 nW1).1.retryCount = nW1.retryCount + 1 ∧
     (processNotification defaultNotificationConfig 7 nW1).1.error = "simulated email sending failure" ∧
     (nW1.retryCount + 1 < nW1.maxRetries →
       (processNotification defaultNotificationConfig 7 nW1).1.status = statusPending ∧
       (processNotification defaultNotificationConfig 7 nW1).2 = true ∧
       (processNotification defaultNotificationConfig 7 nW1).1.scheduledAt =
         some (7 + defaultNotificationConfig.retryDelay)) ∧
     (¬ nW1.retryCount + 1 < nW1.maxRetries →
       (processNotification defaultNotificationConfig 7 nW1).1.status = statusFailed ∧
       (processNotification defaultNotificationConfig 7 nW1).2 = false ∧
       (processNotification defaultNotificationConfig 7 nW1).1.retryCount = nW1.retryCount + 1)) :=
  ⟨by decide,
   claim1_retry_rule defaultNotificationConfig 7 nW1
     "simulated email sending failure" (by decide)⟩

/-! ### Claim C3 — unsupported notification type -/

/-- A notification whose `Type` is outside the supported set. -/
def nCx3 : Notification :=
  { type := "carrier_pigeon", retryCount := 0, maxRetries := 3 }

/-- Claim C3 as stated is false: a fresh notification of an unsupported
type is not moved directly to `Failed` with `RetryCount == 0`; the
worker increments `RetryCount` to 1, resets `Status` to `Pending`, and
re-enqueues it. -/
theorem claim3_counterexample :
    isSupportedType nCx3.type = false ∧
    (processNotification defaultNotificationConfig 0 nCx3).2 = true ∧
    (processNotification defaultNotificationConfig 0 nCx3).1.status = statusPending ∧
    (processNotification defaultNotificationConfig 0 nCx3).1.retryCount = 1 := by
  decide

/-- Claim C3 amended: an unsupported `Type` is treated as an ordinary
delivery failure and put through the normal retry policy: the attempt
yields the "unsupported notification type" error, `RetryCount` is
incremented, and the notification is re-enqueued as `Pending` while the
incremented count is below `MaxRetries`; only once retries are
exhausted does it become `Failed` — with `RetryCount` at `MaxRetries`,
never 0. -/
theorem claim3_unsupported_retries (cfg : NotificationConfig)
    (now : Time) (n : Notification)
    (h : isSupportedType n.type = false) :
    attemptDelivery n = some ("unsupported notification type: " ++ n.type) ∧
    (processNotification cfg now n).1.retryCount = n.retryCount + 1 ∧
    (n.retryCount + 1 < n.maxRetries →
      (processNotification cfg now n).1.status = statusPending ∧
      (processNotification cfg now n).2 = true) ∧
    (¬ n.retryCount + 1 < n.maxRetries →
      (processNotification cfg now n).1.status = statusFailed ∧
      (processNotification cfg now n).2 = false) := by
  simp only [isSupportedType, decide_eq_false_iff_not, not_or] at h
  obtain ⟨h1, h2, h3, h4, h5, h6⟩ := h
  have ha : attemptDelivery n =
      some ("unsupported notification type: " ++ n.type) := by
    simp [attemptDelivery, h1, h2, h3, h4, h5, h6]
  refine ⟨ha, ?_⟩
  rw [process_fail_eq cfg now n _ ha]
  by_cases hlt : n.retryCount + 1 < n.maxRetries <;> simp [hlt]

/-- Witness input for `claim3_unsupported_retries`. -/
def nW3 : Notification :=
  { type := "pager", retryCount := 0, maxRetries := 3 }

/-- Witness for `claim3_unsupported_retries` at `nW3`. -/
theorem claim3_witness :
    isSupportedType nW3.type = false ∧
    (attemptDelivery nW3 = some ("unsupported notification type: " ++ nW3.type) ∧
     (processNotification defaultNotificationConfig 0 nW3).1.retryCount = nW3.retryCount + 1 ∧
     (nW3.retryCount + 1 < nW3.maxRetries →
       (processNotification defaultNotificationConfig 0 nW3).1.status = statusPending ∧
       (processNotification defaultNotificationConfig 0 nW3).2 = true) ∧
     (¬ nW3.retryCount + 1 < nW3.maxRetries →
       (processNotification defaultNotificationConfig 0 nW3).1.status = statusFailed ∧
       (processNotification defaultNotificationConfig 0 nW3).2 = false)) :=
  ⟨by decide,
   claim3_unsupported_retries defaultNotificationConfig 0 nW3 (by decide)⟩

/-! ### Claim C5 — state after a successful delivery -/

/-- A notification that succeeds while carrying an old error message. -/
def nCx5 : Notification :=
  { type := typeInApp, error := "previous failure" }

/-- Claim C5 as stated is false: after this successful delivery,
`Status = Sent` and `SentAt` is set, but `Error` is not cleared — the
worker never writes `Error` on the success path. -/
theorem claim5_counterexample :
    attemptDelivery nCx5 = none ∧
    (processNotification defaultNotificationConfig 7 nCx5).1.status = statusSent ∧
    (processNotification defaultNotificationConfig 7 nCx5).1.sentAt = some 7 ∧
    (processNotification defaultNotificationConfig 7 nCx5).1.error ≠ "" := by
  decide

/-- Claim C5 amended: after a successful delivery `Status == Sent` and
`SentAt` is set to the time of success, but `Error` is left exactly as
it was before the attempt (it is never cleared). -/
theorem claim5_success_state (cfg : NotificationConfig) (now : Time)
    (n : Notification) (h : attemptDelivery n = none) :
    (processNotification cfg now n).1.status = statusSent ∧
    (processNotification cfg now n).1.sentAt = some now ∧
    (processNotification cfg now n).1.error = n.error ∧
    (processNotification cfg now n).2 = false := by
  rw [process_success_eq cfg now n h]
  simp

/-- Witness input for `claim5_success_state`. -/
def nW5 : Notification := { type := typeSMS, error := "stale" }

/-- Witness for `claim5_success_state` at `nW5`. -/
theorem claim5_witness :
    attemptDelivery nW5 = none ∧
    ((processNotification defaultNotificationConfig 11 nW5).1.status = statusSent ∧
     (processNotification defaultNotificationConfig 11 nW5).1.sentAt = some 11 ∧
     (processNotification defaultNotificationConfig 11 nW5).1.error = nW5.error ∧
     (processNotification defaultNotificationConfig 11 nW5).2 = false) :=
  ⟨by decide, claim5_success_state defaultNotificationConfig 11 nW5 (by decide)⟩

/-! ### Claim C7 — email with empty recipient -/

/-- A fresh email notification with an empty `Recipient`. -/
def nCx7 : Notification :=
  { type := typeEmail, recipient := "", retryCount := 0, maxRetries := 3 }

/-- Claim C7 as stated is false: an `Email` notification with an empty
`Recipient` is not failed immediately — the placeholder sender performs
no validation, so the first attempt succeeds and the notification ends
in `Sent`, not `Failed`. -/
theorem claim7_counterexample :
    nCx7.type = typeEmail ∧ nCx7.recipient = "" ∧
    (processNotification defaultNotificationConfig 0 nCx7).1.status = statusSent ∧
    (processNotification defaultNotificationConfig 0 nCx7).1.status ≠ statusFailed := by
  decide

/-- Claim C7 amended: the code validates nothing about `Recipient`; a
first-attempt (`RetryCount = 0`) email notification — whatever its
`Recipient`, including the empty string — succeeds: `Status = Sent`,
`RetryCount` stays 0, and it is not re-enqueued. -/
theorem claim7_no_validation (cfg : NotificationConfig) (now : Time)
    (n : Notification) (h1 : n.type = typeEmail)
    (h2 : n.retryCount = 0) :
    attemptDelivery n = none ∧
    (processNotification cfg now n).1.status = statusSent ∧
    (processNotification cfg now n).1.retryCount = 0 ∧
    (processNotification cfg now n).2 = false := by
  have ha : attemptDelivery n = none := by
    simp [attemptDelivery, sendEmail, h1, h2]
  refine ⟨ha, ?_⟩
  rw [process_success_eq cfg now n ha]
  simp [h2]

/-- Witness input for `claim7_no_validation`. -/
def nW7 : Notification :=
  { type := typeEmail, recipient := "", retryCount := 0, maxRetries := 3,
    title := "welcome" }

/-- Witness for `claim7_no_validation` at `nW7`. -/
theorem claim7_witness :
    nW7.type = typeEmail ∧ nW7.retryCount = 0 ∧
    (attemptDelivery nW7 = none ∧
     (processNotification defaultNotificationConfig 0 nW7).1.status = statusSent ∧
     (processNotification defaultNotificationConfig 0 nW7).1.retryCount = 0 ∧
     (processNotification defaultNotificationConfig 0 nW7).2 = false) :=
  ⟨rfl, rfl,
   claim7_no_validation defaultNotificationConfig 0 nW7 rfl rfl⟩

/-! ### Claim C2 — calls after `Stop()` -/

/-- A running service about to be stopped. -/
def svcRunning2 : ServiceState :=
  { ctxCancelled := false, queueClosed := false, receiverWaiting := false,
    queue := [], batchSize := 100 }

/-- The notification submitted after shutdown. -/
def nCx2 : Notification := { type := typeEmail, title := "post-stop" }

/-- Claim C2 is the intent but the code violates it: after
`Stop()` has returned (context cancelled, queue channel closed), the
`select` in `SendNotification` has two ready cases; when the runtime
picks the send case, the send on the closed channel raises a runtime
panic instead of returning `ServiceStopped` — only the other choice
returns `ServiceStopped`. -/
theorem claim2_post_stop_panic :
    (sendNotification defaultNotificationConfig 5 (stopService svcRunning2)
      nCx2 SelectChoice.sendCase).1 = SendResult.panicked ∧
    (sendNotification defaultNotificationConfig 5 (stopService svcRunning2)
      nCx2 SelectChoice.doneCase).1 = SendResult.serviceStopped := by
  decide

/-! ### Claim C6 — non-blocking enqueue trichotomy -/

/-- A stopped service (queue closed) for the counterexample. -/
def svcStopped6 : ServiceState := stopService { batchSize := 2 }

/-- The notification for the C6 counterexample. -/
def nCx6 : Notification := { type := typeInApp }

/-- Claim C6 as stated is false: when the service has been stopped the
call does not always return `ServiceStopped` — with the `select`
choosing the (closed-channel) send case, the outcome is a panic, which
is none of the three claimed results. -/
theorem claim6_counterexample :
    (sendNotification defaultNotificationConfig 0 svcStopped6 nCx6
      SelectChoice.sendCase).1 = SendResult.panicked ∧
    ¬((sendNotification defaultNotificationConfig 0 svcStopped6 nCx6
        SelectChoice.sendCase).1 = SendResult.enqueued ∨
      (sendNotification defaultNotificationConfig 0 svcStopped6 nCx6
        SelectChoice.sendCase).1 = SendResult.serviceStopped ∨
      (sendNotification defaultNotificationConfig 0 svcStopped6 nCx6
        SelectChoice.sendCase).1 = SendResult.queueFull) := by
  decide

/-- Claim C6 amended: as long as `Stop()` has not yet closed the queue
channel, every `SendNotification` call returns (never blocks, never
panics) with exactly one of: enqueued success; `QueueFull` — and then
the queue really is at capacity with no waiting worker and the context
not cancelled; or `ServiceStopped` — and then the context really is
cancelled.  Once the queue is closed a panic is possible instead (see
the counterexample). -/
theorem claim6_nonblocking (cfg : NotificationConfig) (now : Time)
    (st : ServiceState) (n : Notification) (choice : SelectChoice)
    (h : st.queueClosed = false) :
    ((sendNotification cfg now st n choice).1 = SendResult.enqueued ∨
     (sendNotification cfg now st n choice).1 = SendResult.serviceStopped ∨
     (sendNotification cfg now st n choice).1 = SendResult.queueFull) ∧
    (sendNotification cfg now st n choice).1 ≠ SendResult.panicked ∧
    ((sendNotification cfg now st n choice).1 = SendResult.queueFull →
      st.ctxCancelled = false ∧ st.receiverWaiting = false ∧
      ¬ (st.queue.length : Int) < st.batchSize) ∧
    ((sendNotification cfg now st n choice).1 = SendResult.serviceStopped →
      st.ctxCancelled = true) := by
  cases hc : st.ctxCancelled <;> cases hr : st.receiverWaiting <;>
    rcases Classical.em ((st.queue.length : Int) < st.batchSize) with hl | hl <;>
    cases choice <;>
    simp [sendNotification, queueSendReady, execQueueSend, h, hc, hr, hl]

/-- A running, non-full service for the C6 witness. -/
def svcOpen6 : ServiceState :=
  { ctxCancelled := false, queueClosed := false, receiverWaiting := false,
    queue := [], batchSize := 2 }

/-- Witness for `claim6_nonblocking` at `svcOpen6`. -/
theorem claim6_witness :
    svcOpen6.queueClosed = false ∧
    (((sendNotification defaultNotificationConfig 0 svcOpen6 nW5
        SelectChoice.sendCase).1 = SendResult.enqueued ∨
      (sendNotification defaultNotificationConfig 0 svcOpen6 nW5
        SelectChoice.sendCase).1 = SendResult.serviceStopped ∨
      (sendNotification defaultNotificationConfig 0 svcOpen6 nW5
        SelectChoice.sendCase).1 = SendResult.queueFull) ∧
     (sendNotification defaultNotificationConfig 0 svcOpen6 nW5
        SelectChoice.sendCase).1 ≠ SendResult.panicked ∧
     ((sendNotification defaultNotificationConfig 0 svcOpen6 nW5
        SelectChoice.sendCase).1 = SendResult.queueFull →
       svcOpen6.ctxCancelled = false ∧ svcOpen6.receiverWaiting = false ∧
       ¬ (svcOpen6.queue.length : Int) < svcOpen6.batchSize) ∧
     ((sendNotification defaultNotificationConfig 0 svcOpen6 nW5
        SelectChoice.sendCase).1 = SendResult.serviceStopped →
       svcOpen6.ctxCancelled = true)) :=
  ⟨rfl, claim6_nonblocking defaultNotificationConfig 0 svcOpen6 nW5
    SelectChoice.sendCase rfl⟩

/-! ### Claim C9 — `ScheduleNotification` -/

/-- A stopped service for the C9 counterexample. -/
def svcStopped9 : ServiceState := stopService { batchSize := 100 }

/-- The notification scheduled in the C9 counterexample. -/
def nCx9 : Notification := { type := typeEmail }

/-- Claim C9 as stated is false in its error clause: even when the
service has been stopped, `ScheduleNotification` returns `nil` (no
`ServiceStopped` error); the `ServiceStopped` outcome arises only
inside the spawned goroutine, whose `SendNotification` result is
discarded. -/
theorem claim9_counterexample :
    (scheduleNotification 100 nCx9 50).returned = none ∧
    (sendNotification defaultNotificationConfig 100 svcStopped9
      (scheduleNotification 100 nCx9 50).job.payload
      SelectChoice.doneCase).1 = SendResult.serviceStopped := by
  decide

/-- Claim C9 amended: `ScheduleNotification(n, at)` returns immediately
and never blocks until `at` (the wait happens in a spawned goroutine
that sleeps `max(at - now, 0)`, so a past `at` means an immediate
send); it records `ScheduledAt = at`; and it always returns `nil` — it
can return no error at all, the deferred `SendNotification`'s
`ServiceStopped`/`QueueFull` results being discarded in the
goroutine. -/
theorem claim9_schedule (now : Time) (n : Notification)
    (scheduledAt : Time) :
    (scheduleNotification now n scheduledAt).returned = none ∧
    (scheduleNotification now n scheduledAt).notif.scheduledAt = some scheduledAt ∧
    (scheduleNotification now n scheduledAt).job.sleepFor =
      max (scheduledAt - now) 0 ∧
    (scheduleNotification now n scheduledAt).job.payload =
      (scheduleNotification now n scheduledAt).notif ∧
    (scheduledAt ≤ now →
      (scheduleNotification now n scheduledAt).job.sleepFor = 0) := by
  refine ⟨rfl, rfl, rfl, rfl, fun hle => ?_⟩
  show max (scheduledAt - now) 0 = 0
  exact max_eq_right_iff.mpr (sub_nonpos.mpr hle)

/-- Witness for `claim9_schedule` with a past `scheduledAt`. -/
theorem claim9_witness :
    (scheduleNotification 10 nW5 3).returned = none ∧
    (scheduleNotification 10 nW5 3).notif.scheduledAt = some 3 ∧
    (scheduleNotification 10 nW5 3).job.sleepFor = max ((3 : Int) - 10) 0 ∧
    (scheduleNotification 10 nW5 3).job.payload =
      (scheduleNotification 10 nW5 3).notif ∧
    ((3 : Int) ≤ 10 → (scheduleNotification 10 nW5 3).job.sleepFor = 0) :=
  claim9_schedule 10 nW5 3

/-! ### Claim C4 — retry-count invariant -/

/-- One unfolding of the worker loop. -/
theorem runWorker_succ (cfg : NotificationConfig) (now : Time)
    (fuel : Nat) (n : Notification) :
    runWorker cfg now (fuel + 1) n =
      if (processNotification cfg now n).2 then
        runWorker cfg now fuel (processNotification cfg now n).1
      else (processNotification cfg now n).1 := rfl

/-- Claim C4: starting from the state every notification is in when it
enters the queue (`RetryCount < MaxRetries`, not already `Failed` —
fresh ones have `RetryCount = 0` and `MaxRetries = 3`), every state the
worker loop ever produces satisfies `RetryCount <= MaxRetries`, and any
state it leaves in terminal `Failed` status has
`RetryCount == MaxRetries` exactly. -/
theorem claim4_retry_invariant (cfg : NotificationConfig) (now : Time)
    (n : Notification) (h : n.retryCount < n.maxRetries)
    (h2 : n.status ≠ statusFailed) :
    ∀ fuel : Nat,
      (runWorker cfg now fuel n).retryCount ≤ n.maxRetries ∧
      ((runWorker cfg now fuel n).status = statusFailed →
        (runWorker cfg now fuel n).retryCount = n.maxRetries) := by
  intro fuel
  induction fuel generalizing n with
  | zero => exact ⟨le_of_lt h, fun hf => absurd hf h2⟩
  | succ fuel ih =>
    rcases hA : attemptDelivery n with _ | e
    · have hp := process_success_eq cfg now n hA
      rw [runWorker_succ, hp]
      simp [statusSent, statusFailed]
      omega
    · have hp := process_fail_eq cfg now n e hA
      by_cases hlt : n.retryCount + 1 < n.maxRetries
      · rw [runWorker_succ, hp, if_pos hlt]
        have hres := ih
          ({ n with
             status := statusPending, error := e,
             retryCount := n.retryCount + 1,
             scheduledAt := some (now + cfg.retryDelay), updatedAt := now })
          (by simpa using hlt) (by simp [statusPending, statusFailed])
        simpa using hres
      · rw [runWorker_succ, hp, if_neg hlt]
        simp [statusFailed]
        omega

/-- A fresh notification as the system creates it. -/
def nW4 : Notification := { type := typeEmail, retryCount := 0, maxRetries := 3 }

/-- Witness for `claim4_retry_invariant` at `nW4`, five loop steps. -/
theorem claim4_witness :
    nW4.retryCount < nW4.maxRetries ∧ nW4.status ≠ statusFailed ∧
    ((runWorker defaultNotificationConfig 0 5 nW4).retryCount ≤ nW4.maxRetries ∧
     ((runWorker defaultNotificationConfig 0 5 nW4).status = statusFailed →
       (runWorker defaultNotificationConfig 0 5 nW4).retryCount = nW4.maxRetries)) :=
  ⟨by decide, by decide,
   claim4_retry_invariant defaultNotificationConfig 0 nW4 (by decide) (by decide) 5⟩

/-! ### Claims C8 and C10 — the periodic sweep -/

/-- What the overdue loop submits for one task, as a partial map: one
notification when both pointers are set, nothing when the task is
skipped for lack of a `UserID`.  (The `UserID`-set/`DueDate`-nil case
is the panic, excluded by the hypothesis wherever this is used.) -/
def overdueSubmission (now : Time) (t : Task) : Option Notification :=
  match t.userID, t.dueDate with
  | some uid, some d => some (mkOverdueNotification now t uid d)
  | _, _ => none

/-- What the due-soon loop submits for one task: a reminder exactly for
tasks with both pointers set whose due date lies strictly inside the
60-minute lookahead window. -/
def dueSoonSubmission (now : Time) (t : Task) : Option Notification :=
  match t.dueDate, t.userID with
  | some d, some uid =>
    if now < d ∧ d < now + 3600 then
      some (mkDueSoonNotification now t uid d)
    else none
  | _, _ => none

/-- When no overdue task with a `UserID` has a nil `DueDate`, the
overdue sweep does not panic and submits exactly one notification per
task that has both pointers, in list order. -/
theorem checkOverdueTasks_filterMap (now : Time) (ts : List Task)
    (h : ∀ t ∈ ts, t.userID.isSome = true → t.dueDate.isSome = true) :
    checkOverdueTasks now ts = some (ts.filterMap (overdueSubmission now)) := by
  induction ts with
  | nil => rfl
  | cons t ts ihl =>
    have hrest : ∀ x ∈ ts, x.userID.isSome = true → x.dueDate.isSome = true :=
      fun x hx => h x (by simp [hx])
    rcases hu : t.userID with _ | uid
    · simp [checkOverdueTasks, overdueSubmission, List.filterMap_cons, hu,
        ihl hrest]
    · rcases hd : t.dueDate with _ | d
      · have := h t (by simp)
        rw [hu, hd] at this
        simp at this
      · simp [checkOverdueTasks, overdueSubmission, List.filterMap_cons, hu,
          hd, ihl hrest]

/-- The due-soon sweep submits exactly one reminder per task with both
pointers set and a due date strictly inside the window, in list order. -/
theorem checkDueSoonTasks_filterMap (now : Time) (ts : List Task) :
    checkDueSoonTasks now ts = ts.filterMap (dueSoonSubmission now) := by
  induction ts with
  | nil => rfl
  | cons t ts ihl =>
    rcases hd : t.dueDate with _ | d <;> rcases hu : t.userID with _ | uid <;>
      simp [checkDueSoonTasks, dueSoonSubmission, List.filterMap_cons, hd, hu, ihl]
    by_cases hw : now < d ∧ d < now + 3600 <;> simp [hw]

/-- Claim C8: on a sweep tick — given that no overdue task with a
`UserID` carries a nil `DueDate` (else the sweep panics, claim C10) —
the overdue pass submits via `SendNotification` exactly one
notification per `GetOverdueTasks` task with a `UserID` (skipping the
rest), each with `Trigger = Overdue`, `Priority = High`,
`Type = Email`; and the due-soon pass submits exactly one notification
per `GetAllTasks` task having a `UserID` and a `DueDate` strictly
between `now` and `now + 60min`, each with `Trigger = DueDate`. -/
theorem claim8_sweep (now : Time) (overdue allTasks : List Task)
    (h : ∀ t ∈ overdue, t.userID.isSome = true → t.dueDate.isSome = true) :
    checkOverdueTasks now overdue =
      some (overdue.filterMap (overdueSubmission now)) ∧
    (∀ t ∈ overdue, ∀ uid d, t.userID = some uid → t.dueDate = some d →
      mkOverdueNotification now t uid d ∈
        overdue.filterMap (overdueSubmission now)) ∧
    (∀ t ∈ overdue, t.userID = none → overdueSubmission now t = none) ∧
    (∀ m ∈ overdue.filterMap (overdueSubmission now),
      m.trigger = triggerOverdue ∧ m.priority = priorityHigh ∧
        m.type = typeEmail) ∧
    checkDueSoonTasks now allTasks =
      allTasks.filterMap (dueSoonSubmission now) ∧
    (∀ t ∈ allTasks, ∀ uid d, t.userID = some uid → t.dueDate = some d →
      now < d → d < now + 3600 →
      mkDueSoonNotification now t uid d ∈
        allTasks.filterMap (dueSoonSubmission now)) ∧
    (∀ t ∈ allTasks, t.userID = none → dueSoonSubmission now t = none) ∧
    (∀ m ∈ allTasks.filterMap (dueSoonSubmission now),
      m.trigger = triggerDueDate ∧ m.type = typeEmail) := by
  refine ⟨checkOverdueTasks_filterMap now overdue h, ?_, ?_, ?_,
    checkDueSoonTasks_filterMap now allTasks, ?_, ?_, ?_⟩
  · intro t ht uid d hu hd
    exact List.mem_filterMap.mpr ⟨t, ht, by simp [overdueSubmission, hu, hd]⟩
  · intro t _ hu
    simp [overdueSubmission, hu]
  · intro m hm
    obtain ⟨t, _, hsub⟩ := List.mem_filterMap.mp hm
    rcases hu : t.userID with _ | uid <;> rcases hd : t.dueDate with _ | d <;>
      rw [overdueSubmission, hu, hd] at hsub <;> simp at hsub
    subst hsub
    exact ⟨rfl, rfl, rfl⟩
  · intro t ht uid d hu hd hnow hwin
    refine List.mem_filterMap.mpr ⟨t, ht, ?_⟩
    rw [dueSoonSubmission, hu, hd]
    simp [hnow, hwin]
  · intro t _ hu
    rcases hd : t.dueDate with _ | d <;> simp [dueSoonSubmission, hu, hd]
  · intro m hm
    obtain ⟨t, _, hsub⟩ := List.mem_filterMap.mp hm
    rcases hd : t.dueDate with _ | d <;> rcases hu : t.userID with _ | uid <;>
      rw [dueSoonSubmission, hd, hu] at hsub <;> simp at hsub
    rcases hsub with ⟨-, hsub⟩
    subst hsub
    exact ⟨rfl, rfl⟩

/-- An overdue task with both pointers set. -/
def taskW8a : Task :=
  { id := 1, title := "write report", dueDate := some (-7200), userID := some 7 }

/-- A task due inside the 60-minute window. -/
def taskW8b : Task :=
  { id := 2, title := "call back", dueDate := some 1800, userID := some 8 }

/-- A task with neither pointer set (skipped by both passes). -/
def taskW8c : Task := { id := 3, title := "draft" }

/-- Witness for `claim8_sweep` at a two-by-two task sample. -/
theorem claim8_witness :
    (∀ t ∈ [taskW8a, taskW8c], t.userID.isSome = true →
      t.dueDate.isSome = true) ∧
    (checkOverdueTasks 0 [taskW8a, taskW8c] =
      some ([taskW8a, taskW8c].filterMap (overdueSubmission 0)) ∧
    (∀ t ∈ [taskW8a, taskW8c], ∀ uid d, t.userID = some uid →
      t.dueDate = some d →
      mkOverdueNotification 0 t uid d ∈
        [taskW8a, taskW8c].filterMap (overdueSubmission 0)) ∧
    (∀ t ∈ [taskW8a, taskW8c], t.userID = none →
      overdueSubmission 0 t = none) ∧
    (∀ m ∈ [taskW8a, taskW8c].filterMap (overdueSubmission 0),
      m.trigger = triggerOverdue ∧ m.priority = priorityHigh ∧
        m.type = typeEmail) ∧
    checkDueSoonTasks 0 [taskW8b, taskW8c] =
      [taskW8b, taskW8c].filterMap (dueSoonSubmission 0) ∧
    (∀ t ∈ [taskW8b, taskW8c], ∀ uid d, t.userID = some uid →
      t.dueDate = some d → 0 < d → d < 0 + 3600 →
      mkDueSoonNotification 0 t uid d ∈
        [taskW8b, taskW8c].filterMap (dueSoonSubmission 0)) ∧
    (∀ t ∈ [taskW8b, taskW8c], t.userID = none →
      dueSoonSubmission 0 t = none) ∧
    (∀ m ∈ [taskW8b, taskW8c].filterMap (dueSoonSubmission 0),
      m.trigger = triggerDueDate ∧ m.type = typeEmail)) :=
  ⟨by decide, claim8_sweep 0 [taskW8a, taskW8c] [taskW8b, taskW8c] (by decide)⟩

/-- Claim C10: the overdue pass completes without panicking exactly
when every `GetOverdueTasks` task that has a `UserID` also has a
non-nil `DueDate`; the loop guards only `UserID`, then dereferences
`*task.DueDate` unconditionally. -/
theorem claim10_nil_due_date_guard (now : Time) (ts : List Task) :
    (checkOverdueTasks now ts).isSome = true ↔
      ∀ t ∈ ts, t.userID.isSome = true → t.dueDate.isSome = true := by
  induction ts with
  | nil => simp [checkOverdueTasks]
  | cons t ts ihl =>
    rcases hu : t.userID with _ | uid <;> rcases hd : t.dueDate with _ | d <;>
      simp [checkOverdueTasks, hu, hd, ihl]

/-- A task whose nil `DueDate` makes the overdue pass panic. -/
def taskW10 : Task := { id := 5, title := "broken", userID := some 2 }

/-- Witness for `claim10_nil_due_date_guard`: the good list completes,
the list with a `UserID`-bearing, `DueDate`-nil task does not. -/
theorem claim10_witness :
    (checkOverdueTasks 0 [taskW8a]).isSome = true ∧
    (checkOverdueTasks 0 [taskW8a, taskW10]).isSome = false :=
  ⟨(claim10_nil_due_date_guard 0 [taskW8a]).mpr (by decide), by decide⟩

end TaskNotify
